import Mathlib

/-!
Verification of the NightVision MCP server's command/request translation
layer against its specification.

The TypeScript source is shallowly embedded: pure computations (command-line
assembly, table formatting, query-parameter assembly, output-path
computation) become Lean functions; the stateful handlers become functions
from an explicit state and the outcomes of their external calls (subprocess
and HTTP, supplied as oracle arguments of type `Except`/`Bool`) to a final
state, a response envelope and a chronological list of events.  JavaScript
truthiness of optional strings/numbers is modelled explicitly (`truthy`,
the `!= 0` / `!= ""` guards below).
-/

namespace NightVision

/-- The fixed production API URL from `src/config/environment.ts`
(`ENVIRONMENT.CURRENT_API_URL`). -/
def CURRENT_API_URL : String := "https://api.nightvision.net/api/v1/"

/-- An MCP response envelope: the tool handlers in this repository always
return a single text block plus an error flag (`isError`, absent = false). -/
structure Envelope where
  text : String
  isError : Bool
  deriving DecidableEq, Repr

/-- One observable step of a tool-invocation turn, in chronological order:
a subprocess invocation of the NightVision CLI, an HTTP request to the API,
a line logged to stderr, or the handler returning its envelope to the
caller. -/
inductive Ev where
  | execCLI (command : String) : Ev
  | httpReq (endpoint : String) : Ev
  | logged (msg : String) : Ev
  | returned (env : Envelope) : Ev
  deriving DecidableEq, Repr

/-- JavaScript truthiness of an optional string parameter: present and
non-empty. -/
def truthy : Option String → Bool
  | some s => s != ""
  | none => false

/-- `Array.prototype.join(sep)`. -/
def joinSep (sep : String) : List String → String
  | [] => ""
  | [s] => s
  | s :: t :: rest => s ++ sep ++ joinSep sep (t :: rest)

/-- The three output formats accepted by `executeCommand`
(`OutputFormat` in `src/services/nightvision.ts`). -/
inductive OutputFormat where
  | text | json | table
  deriving DecidableEq, Repr

/-- The format's string form, as pushed after the `-F` flag. -/
def OutputFormat.flag : OutputFormat → String
  | .text => "text"
  | .json => "json"
  | .table => "table"

/-- `arg.includes(' ')` from `executeCommand`: the check tests for the space
character only, not for general whitespace. -/
def hasSpace (s : String) : Bool := s.data.contains ' '

/-- The per-argument quoting step of `executeCommand`:
`arg.includes(' ') ? `"${arg}"` : arg`. -/
def quoteArg (arg : String) : String :=
  if hasSpace arg then "\"" ++ arg ++ "\"" else arg

/-- The argument list `executeCommand` assembles before quoting: the caller's
`args`, then `-F <format>` (every `OutputFormat` value is a truthy string, so
the `if (format)` guard always passes), then `--api-url <CURRENT_API_URL>`,
then `--token <token>` when a truthy token is held and not skipped. -/
def commandArgsFor (args : List String) (format : OutputFormat)
    (token : Option String) (skipToken : Bool) : List String :=
  args ++ ["-F", format.flag] ++ ["--api-url", CURRENT_API_URL] ++
    (match token with
     | some t => if t != "" && !skipToken then ["--token", t] else []
     | none => [])

/-- The full shell command line built by `executeCommand`:
`['nightvision', ...commandArgs].map(quoteArg).join(' ')`. -/
def buildCommandLine (args : List String) (format : OutputFormat)
    (token : Option String) (skipToken : Bool) : String :=
  joinSep " " (("nightvision" :: commandArgsFor args format token skipToken).map quoteArg)

/-! ## ASCII table formatting (`NightVisionService.formatAsTable`) -/

/-- `String.prototype.padEnd(w)`: pad with spaces up to width `w`; a string
already at least `w` long is returned unchanged. -/
def padEnd (s : String) (w : Nat) : String :=
  s ++ String.mk (List.replicate (w - s.length) ' ')

/-- `r[i]?.toString() ?? ''`: the cell of row `r` at column `i`, the empty
string when the row is shorter (its length then contributes `0`, matching
`r[i]?.toString().length || 0`). -/
def cellAt (r : List String) (i : Nat) : String := r.getD i ""

/-- The column widths computed by `formatAsTable`: for each header index,
`Math.max(h.length, Math.max(...rows.map(r => r[i]?.toString().length || 0)))`.
The fold with seed `0` agrees with `Math.max` over a non-empty list of
natural numbers, and `formatAsTable` only reaches this computation when
`rows` is non-empty. -/
def colWidthsOf (headers : List String) (rows : List (List String)) : List Nat :=
  headers.enum.map (fun p =>
    max p.2.length ((rows.map (fun r => (cellAt r p.1).length)).foldl max 0))

/-- `NightVisionService.formatAsTable`: header row, dash separator row and
one row per item, columns padded to the computed widths and joined by
" | " (separator segments joined by "-+-"); with no headers or no rows the
single line "No data to display" is returned instead. -/
def formatAsTable (headers : List String) (rows : List (List String)) : String :=
  if headers.length = 0 ∨ rows.length = 0 then "No data to display"
  else
    let colWidths := colWidthsOf headers rows
    let headerRow := joinSep " | " (headers.enum.map (fun p => padEnd p.2 (colWidths.getD p.1 0)))
    let separatorRow := joinSep "-+-" (colWidths.map (fun w => String.mk (List.replicate w '-')))
    let dataRows := rows.map (fun row =>
      joinSep " | " (row.enum.map (fun p => padEnd p.2 (colWidths.getD p.1 0))))
    joinSep "\n" (headerRow :: separatorRow :: dataRows)

/-- The number of lines a string consists of: one more than its newline
count. -/
def countLines (s : String) : Nat := (s.data.filter (fun c => c == '\n')).length + 1

/-- A string that stays on one line. -/
def noNewline (s : String) : Prop := '\n' ∉ s.data

/-- The specification's per-column width: the maximum string length among the
column's header and that column's cell values. -/
def maxColLen (headers : List String) (rows : List (List String)) (i : Nat) : Nat :=
  max ((headers.getD i "").length)
    ((rows.map (fun r => (cellAt r i).length)).foldl max 0)

/-! ## Token persistence (`src/config/token.ts`) -/

/-- JavaScript's `String.prototype.trim()`: strip whitespace from both ends
(defined at the character-list level; the whitespace characters occurring in
practice — space, tab, carriage return, newline — are exactly Lean's
`Char.isWhitespace`). -/
def jsTrim (s : String) : String :=
  String.mk (((s.data.dropWhile Char.isWhitespace).reverse.dropWhile Char.isWhitespace).reverse)

/-- The on-disk state `token.ts` touches: whether the `~/.nightvision`
config directory exists and the contents of its `token` file (`none` =
no file). -/
structure TokenStore where
  dirExists : Bool
  tokenFile : Option String
  deriving DecidableEq, Repr

/-- `saveToken`: create the config directory if absent and write the token
verbatim with `fs.writeFileSync`, overwriting any prior file. -/
def saveToken (_fs : TokenStore) (token : String) : TokenStore :=
  { dirExists := true, tokenFile := some token }

/-- `loadToken`: when the token file exists, return
`fs.readFileSync(TOKEN_FILE, 'utf8').trim()`; otherwise `null`. -/
def loadToken (fs : TokenStore) : Option String :=
  match fs.tokenFile with
  | some contents => some (jsTrim contents)
  | none => none

/-- `clearToken`: unlink the token file when it exists; a missing file is not
an error. -/
def clearToken (fs : TokenStore) : TokenStore :=
  { fs with tokenFile := none }

/-! ## HTTP error wrapping (`apiRequest`) and `getProjectByName` -/

/-- A thrown JavaScript error as the service code distinguishes them: an
axios error (for which `axios.isAxiosError` is true, carrying the optional
response status, the optional `response.data.detail` and the error's
`message`), or a plain `Error` (for which `axios.isAxiosError` is false). -/
inductive JsError where
  | axios (status : Option Nat) (detail : Option String) (message : String)
  | plain (message : String)
  deriving DecidableEq, Repr

/-- The `.message` property of a thrown error. -/
def JsError.msg : JsError → String
  | .axios _ _ m => m
  | .plain m => m

/-- The interpolation `${statusCode}` where `statusCode` is
`error.response?.status`: "undefined" when the response is absent. -/
def statusText : Option Nat → String
  | some n => toString n
  | none => "undefined"

/-- `error.response?.data?.detail || error.message`. -/
def detailOr (detail : Option String) (message : String) : String :=
  match detail with
  | some d => if d != "" then d else message
  | none => message

/-- The catch-block of `NightVisionService.apiRequest`: an axios error is
re-thrown as a plain `Error` whose message is
`API request failed (<status>): <detail-or-message>`; any other error is
re-thrown unchanged.  The argument is the outcome of the underlying axios
call. -/
def apiRequestWrap {α : Type} (outcome : Except JsError α) : Except JsError α :=
  match outcome with
  | .ok v => .ok v
  | .error (.axios st detail m) =>
      .error (.plain ("API request failed (" ++ statusText st ++ "): " ++ detailOr detail m))
  | .error (.plain m) => .error (.plain m)

/-- The paginated response body of `projects/name/<name>/`: an optional
`results` array whose elements are project objects (kept opaque as their
JSON text; a present object is truthy, so `!response.results[0]` is modelled
as "the array has no first element"). -/
structure PagedProjects where
  results : Option (List String)
  deriving DecidableEq, Repr

/-- `NightVisionService.getProjectByName`: requests
`projects/name/<name>/` through `apiRequest`, fails with
`Project '<name>' not found or has no data.` when the response or its
results are missing/empty, and in its catch block maps an axios 404 to
`Project '<name>' not found. ...` and everything else to
`Failed to get project details: <message>`.  The whole request outcome
(`none` = a null response body) is the oracle argument. -/
def getProjectByName (projectName : String)
    (outcome : Except JsError (Option PagedProjects)) : Except JsError String :=
  let attempt : Except JsError String :=
    match apiRequestWrap outcome with
    | .error e => .error e
    | .ok none => .error (.plain ("Project '" ++ projectName ++ "' not found or has no data."))
    | .ok (some resp) =>
        match resp.results with
        | some (p :: _) => .ok p
        | _ => .error (.plain ("Project '" ++ projectName ++ "' not found or has no data."))
  match attempt with
  | .ok p => .ok p
  | .error (.axios st d m) =>
      if st == some 404 then
        .error (.plain ("Project '" ++ projectName ++ "' not found. Please check the project name and try again."))
      else
        .error (.plain ("Failed to get project details: " ++ (JsError.axios st d m).msg))
  | .error (.plain m) => .error (.plain ("Failed to get project details: " ++ m))

/-! ## Query parameters (`getScanChecks`, `getScanPaths`) -/

/-- A value stored in the `params` record passed to axios: a string, a
number, or an array (of strings or numbers). -/
inductive QueryVal where
  | str (v : String)
  | num (v : Nat)
  | strList (vs : List String)
  | numList (vs : List Nat)
  deriving DecidableEq, Repr

/-- The `params` record assembled by `NightVisionService.getScanChecks`:
`page` when truthy, `page_size` always (defaulting to 100 via
`options.page_size || 100`), `name` and `check_kind` when truthy, and the
`severity` and `status` arrays unconditionally. -/
def scanChecksParams (page page_size : Option Nat) (name check_kind : Option String)
    (severity : List String) (status : List Nat) : List (String × QueryVal) :=
  (match page with
   | some p => if p != 0 then [("page", QueryVal.num p)] else []
   | none => []) ++
  [("page_size", QueryVal.num (match page_size with
    | some ps => if ps != 0 then ps else 100
    | none => 100))] ++
  (match name with
   | some s => if s != "" then [("name", QueryVal.str s)] else []
   | none => []) ++
  (match check_kind with
   | some s => if s != "" then [("check_kind", QueryVal.str s)] else []
   | none => []) ++
  [("severity", QueryVal.strList severity), ("status", QueryVal.numList status)]

/-- The `params` record assembled by `NightVisionService.getScanPaths`:
`page`, `page_size` and `filter` each only when truthy. -/
def scanPathsParams (page page_size : Option Nat) (filterOpt : Option String) :
    List (String × QueryVal) :=
  (match page with
   | some p => if p != 0 then [("page", QueryVal.num p)] else []
   | none => []) ++
  (match page_size with
   | some ps => if ps != 0 then [("page_size", QueryVal.num ps)] else []
   | none => []) ++
  (match filterOpt with
   | some f => if f != "" then [("filter", QueryVal.str f)] else []
   | none => [])

/-- The query-string entries a `params` record stands for, per the
specification's API-Request data model: scalar values become one entry and
array values are preserved as repeated keys, one entry per element. -/
def expandQuery (params : List (String × QueryVal)) : List (String × String) :=
  params.flatMap (fun p =>
    match p.2 with
    | .str v => [(p.1, v)]
    | .num v => [(p.1, toString v)]
    | .strList vs => vs.map (fun v => (p.1, v))
    | .numList vs => vs.map (fun v => (p.1, toString v)))

/-! ## Output-path computation (`discoverApi`) -/

/-- Node's `path.basename` for POSIX paths: the part after the last
separator. -/
def basename (p : String) : String :=
  String.mk ((p.data.reverse.takeWhile (fun c => c != '/')).reverse)

/-- Node's `path.dirname` for POSIX paths: the part before the last
separator, "/" for a file directly under the root and "." when there is no
separator. -/
def dirname (p : String) : String :=
  let pre := ((p.data.reverse.dropWhile (fun c => c != '/')).drop 1).reverse
  if pre.isEmpty then (if p.data.head? = some '/' then "/" else ".") else String.mk pre

/-- Node's `path.join(dir, file)` for a directory without a trailing
separator. -/
def pathJoin (dir file : String) : String := dir ++ "/" ++ file

/-- The filesystem answers `discoverApi` consults: `fs.existsSync` and
whether `fs.accessSync(-, W_OK)` succeeds. -/
structure FsView where
  pathExists : String → Bool
  writable : String → Bool

/-- The output-file computation of `NightVisionService.discoverApi`: an
absolute requested output whose directory is the root or does not exist is
redirected to the temp directory under the same base name; a relative one is
resolved against the workspace (`path.resolve`, supplied as an oracle);
finally the chosen file's directory is tested for write access and the file
is redirected to the temp directory on failure. -/
def computeOutputFile (fs : FsView) (tmpDir : String)
    (resolve : String → String → String) (workspacePath output : String) : String :=
  let outputFile :=
    if output.data.head? = some '/' then
      if dirname output == "/" || !(fs.pathExists (dirname output)) then
        pathJoin tmpDir (basename output)
      else output
    else resolve workspacePath output
  if fs.writable (dirname outputFile) then outputFile
  else pathJoin tmpDir (basename outputFile)

/-- A truthy optional string flag: `if (v) args.push(flag, v)`. -/
def optFlag (flag : String) : Option String → List String
  | some v => if v != "" then [flag, v] else []
  | none => []

/-- The options of `discoverApi` (the `verbose` option is accepted but
deliberately ignored by the code). -/
structure DiscoverOptions where
  lang : String
  target : Option String
  target_id : Option String
  project : Option String
  project_id : Option String
  output : String
  exclude : Option String
  version : Option String
  no_upload : Option Bool
  dump_code : Bool
  verbose : Bool

/-- The CLI argument list `discoverApi` assembles for `swagger extract`:
relative source paths are resolved against the workspace, `--lang` is
mandatory, the optional target/project flags follow, then `--output` with
the vetted output file, the optional `--exclude`/`--version` flags,
`--no-upload` unless explicitly disabled, and `--dump-code` on request
(`--verbose` is always suppressed). -/
def discoverApiArgs (fs : FsView) (tmpDir : String)
    (resolve : String → String → String) (workspacePath : String)
    (sourcePaths : List String) (opts : DiscoverOptions) : List String :=
  ["swagger", "extract"] ++
  sourcePaths.map (fun sp => if sp.data.head? = some '/' then sp else resolve workspacePath sp) ++
  ["--lang", opts.lang] ++
  optFlag "--target" opts.target ++
  optFlag "--target-id" opts.target_id ++
  optFlag "--project" opts.project ++
  optFlag "--project-id" opts.project_id ++
  ["--output", computeOutputFile fs tmpDir resolve workspacePath opts.output] ++
  optFlag "--exclude" opts.exclude ++
  optFlag "--version" opts.version ++
  (if opts.no_upload != some false then ["--no-upload"] else []) ++
  (if opts.dump_code then ["--dump-code"] else [])

/-- The string `discoverApi` returns on success: the CLI output with
`\nOpenAPI Specification File: <outputFile>` appended. -/
def discoverApiSuccess (fs : FsView) (tmpDir : String)
    (resolve : String → String → String) (workspacePath : String)
    (opts : DiscoverOptions) (cliOutput : String) : String :=
  cliOutput ++ "\nOpenAPI Specification File: " ++
    computeOutputFile fs tmpDir resolve workspacePath opts.output

/-! ## Tool handlers (`src/tools/scans.ts`, nuclei tools, auth tool) -/

/-- The authentication-required message every credential-gated tool handler
returns when `nightvisionService.getToken()` is falsy. -/
def authRequiredText : String :=
  "Not authenticated. Please use the authenticate tool to set a token first."

/-- The CLI argument list `NightVisionService.startScan` assembles:
`scan <target>` plus the truthy optional auth/project flags. -/
def startScanCliArgs (targetName : String) (auth auth_id : Option String)
    (no_auth : Bool) (project project_id : Option String) : List String :=
  ["scan", targetName] ++
  optFlag "-c" auth ++
  optFlag "-C" auth_id ++
  (if no_auth then ["--no-auth"] else []) ++
  optFlag "-p" project ++
  optFlag "-P" project_id

/-- The arguments of the `start-scan` tool. -/
structure StartScanArgs where
  target_name : String
  auth : Option String
  auth_id : Option String
  no_auth : Bool
  project : Option String
  project_id : Option String
  format : OutputFormat
  deriving Repr

/-- `project || ''`. -/
def strOr : Option String → String
  | some s => s
  | none => ""

/-- The confirmation text the `start-scan` handler returns immediately,
interpolating the target name, `project || ''` and the optional
`project_id` fragment. -/
def startScanConfirmText (targetName : String) (project project_id : Option String) : String :=
  "Scan initiated for target '" ++ targetName ++
  "'.\n\nThe scan is being processed in the background and may take several minutes to complete.\n\nTo check the status of this scan, you can use the get-scan-status tool in either of these ways:\n\n1. Using the target name:\n   \x7b\n     \"target_name\": \"" ++
  targetName ++ "\",\n     \"project\": \"" ++ strOr project ++ "\"" ++
  (match project_id with
   | some pid => if pid != "" then ",\n     \"project_id\": \"" ++ pid ++ "\"" else ""
   | none => "") ++
  "\n   \x7d\n\n2. Or when the scan ID becomes available, you can use:\n   \x7b\n     \"scan_id\": \"scan-id-here\"\n   \x7d\n\nYou can also list all your scans with the list-scans tool."

/-- The events of the `setTimeout(..., 0)` callback the `start-scan` handler
schedules: the CLI invocation `NightVisionService.startScan` performs, then
a log line for either its resolved value or its rejection (the `.then`
extracts and logs a scan id on success and the `.catch` only logs the error;
those stderr lines are summarised by one `logged` event each). -/
def startScanBackgroundEvents (token : Option String) (args : StartScanArgs)
    (launch : Except String String) : List Ev :=
  Ev.execCLI (buildCommandLine
      (startScanCliArgs args.target_name args.auth args.auth_id args.no_auth
        args.project args.project_id)
      args.format token false) ::
  (match launch with
   | .ok result => [Ev.logged ("Scan started successfully in background: " ++ result)]
   | .error msg => [Ev.logged ("Error in background scan execution: " ++ msg)])

/-- The `start-scan` tool handler's turn as a chronological event list: the
credential gate, the project gate, and otherwise a log line, the immediate
`returned` confirmation envelope, and only then the scheduled background
dispatch (whose outcome `launch` is the oracle). -/
def startScanTurn (token : Option String) (args : StartScanArgs)
    (launch : Except String String) : List Ev :=
  if !(truthy token) then
    [Ev.returned ⟨authRequiredText, true⟩]
  else if !(truthy args.project) && !(truthy args.project_id) then
    [Ev.returned ⟨"You must specify a project when starting a scan. Please include either the 'project' or 'project_id' parameter.", true⟩]
  else
    Ev.logged ("Starting scan for target '" ++ args.target_name ++ "' in background...") ::
    Ev.returned ⟨startScanConfirmText args.target_name args.project args.project_id, false⟩ ::
    startScanBackgroundEvents token args launch

/-- The arguments of the `create-nuclei-template` tool. -/
structure CreateNucleiTemplateArgs where
  name : String
  description : Option String
  project_id : String
  format : OutputFormat
  deriving Repr

/-- The `create-nuclei-template` tool handler's turn: the credential gate,
the blank-name and blank-project-id gates, and otherwise the POST to
`nuclei-templates/` through the service (whose formatted result or thrown
message is the oracle `svc`), wrapped into a success or failure envelope. -/
def createNucleiTurn (token : Option String) (args : CreateNucleiTemplateArgs)
    (svc : Except String String) : List Ev :=
  if !(truthy token) then
    [Ev.returned ⟨authRequiredText, true⟩]
  else if jsTrim args.name == "" then
    [Ev.returned ⟨"Template name is required. Please provide a name for your nuclei template.", true⟩]
  else if jsTrim args.project_id == "" then
    [Ev.returned ⟨"Project ID is required. Please specify the project UUID to associate with this template.", true⟩]
  else
    Ev.httpReq "nuclei-templates/" ::
    (match svc with
     | .ok result =>
        [Ev.returned ⟨"Successfully created nuclei template \"" ++ args.name ++
          "\" with project ID \"" ++ args.project_id ++ "\".\n\n" ++ result ++
          "\n\nYou can now use the template ID shown above with the upload-nuclei-template tool to upload your YAML template file.", false⟩]
     | .error msg =>
        [Ev.returned ⟨"Failed to create nuclei template: " ++ msg, true⟩])

/-! ## The authenticate tool (`registerAuthTools`) -/

/-- The state the authenticate handler mutates: the service's in-process
token (`nightvisionService.setToken`) and the persisted token file
(`saveToken`/`clearToken`). -/
structure AuthState where
  svcToken : Option String
  store : TokenStore
  deriving DecidableEq, Repr

/-- `token.substring(0, 8)`. -/
def tokenPrefix (t : String) : String := t.take 8

/-- The subprocess invocations of `NightVisionService.createToken`: the
best-effort `nightvision login` attempt, then `token create` (with `-d`
when an expiry date is given) executed with the current token skipped. -/
def createTokenEvents (svcToken : Option String) (expiry : Option String) : List Ev :=
  [Ev.execCLI ("nightvision login --api-url " ++ CURRENT_API_URL),
   Ev.execCLI (buildCommandLine (["token", "create"] ++
      (match expiry with | some d => ["-d", d] | none => []))
      OutputFormat.text svcToken true)]

/-- The HTTP traffic of `NightVisionService.verifyProductionAuth`: nothing
when no truthy token is held (it returns false at once), otherwise one
request to `user/me/`.  The method catches every request failure and returns
a plain boolean, so it never throws. -/
def verifyEvents (token : Option String) : List Ev :=
  if truthy token then [Ev.httpReq "user/me/"] else []

/-- `verifyProductionAuth`'s result: false without a truthy token, otherwise
the oracle `verifyValid` (whether `user/me/` answered with a nested user
id). -/
def verifyResult (token : Option String) (verifyValid : Bool) : Bool :=
  truthy token && verifyValid

/-- The `authenticate` tool handler: final state, response envelope, and the
external events of the turn.  Branches in source order: `create_new` first
(create a token, store it, verify it — on verification failure the stored
token is NOT cleared), then a provided token (store it, verify it, and clear
it again on verification failure), then the status check (no parameters).
The handler's catch-arm for a throwing verification and its trailing
fallback envelope are unreachable: `verifyProductionAuth` never throws, and
the earlier branches exhaust every argument combination. -/
def authenticateTurn (st : AuthState) (token : Option String) (create_new : Bool)
    (expiry : Option String) (createResult : Except String String)
    (verifyValid : Bool) : AuthState × Envelope × List Ev :=
  if create_new then
    match createResult with
    | .ok newToken =>
        let st1 : AuthState := ⟨some newToken, saveToken st.store newToken⟩
        let evs := createTokenEvents st.svcToken expiry ++ verifyEvents st1.svcToken
        if !(verifyResult st1.svcToken verifyValid) then
          (st1, ⟨"Created a new token (starts with: " ++ tokenPrefix newToken ++
            "...) but it couldn't be validated.\n\nThe login process may not have completed successfully. Please try again or run the following command in your terminal:\nnightvision login --api-url " ++
            CURRENT_API_URL, true⟩, evs)
        else
          (st1, ⟨"Successfully created and saved a new authentication token. Token starts with: " ++
            tokenPrefix newToken ++
            "...\nThis token can be used with both the NightVision CLI and API requests.", false⟩, evs)
    | .error msg =>
        (st, ⟨"Failed to create new token: " ++ msg ++
          "\n\nThe NightVision CLI requires an interactive login session. Please run the following command in your terminal:\nnightvision login --api-url " ++
          CURRENT_API_URL, true⟩, createTokenEvents st.svcToken expiry)
  else if truthy token then
    let t := strOr token
    let st1 : AuthState := ⟨some t, saveToken st.store t⟩
    let evs := verifyEvents st1.svcToken
    if !(verifyResult st1.svcToken verifyValid) then
      (⟨none, clearToken st1.store⟩, ⟨"The provided token is not valid.\n\nPlease run the following command and then try again:\nnightvision login --api-url " ++
        CURRENT_API_URL, true⟩, evs)
    else
      (st1, ⟨"Successfully authenticated. Token starts with: " ++ tokenPrefix t ++ "...", false⟩, evs)
  else
    match st.svcToken with
    | some currentToken =>
        if currentToken != "" then
          let evs := verifyEvents st.svcToken
          if verifyResult st.svcToken verifyValid then
            (st, ⟨"Authenticated successfully. Token starts with: " ++
              tokenPrefix currentToken ++ "...", false⟩, evs)
          else
            (st, ⟨"You have a token (starts with: " ++ tokenPrefix currentToken ++
              "...) but it appears to be invalid or expired.\n\nPlease run the following command and then try again:\nnightvision login --api-url " ++
              CURRENT_API_URL, true⟩, evs)
        else
          (st, ⟨"Not authenticated. Please provide a token or create a new one.", false⟩, [])
    | none =>
        (st, ⟨"Not authenticated. Please provide a token or create a new one.", false⟩, [])

/-! ## Theorems -/

/-- C3 counterexample: saving the token "tok\n" and loading it back returns
the trimmed string "tok", not the identical saved string, because
`loadToken` applies `.trim()` to the file contents. -/
theorem loadToken_trims_saved_token :
    loadToken (saveToken ⟨false, none⟩ "tok\n") = some "tok" ∧
    loadToken (saveToken ⟨false, none⟩ "tok\n") ≠ some "tok\n" := by decide

/-- C3 (amended): `saveToken t` followed by `loadToken` returns the trimmed
token `t.trim` — hence exactly `t` whenever `t` carries no leading or
trailing whitespace — and `clearToken` followed by `loadToken` returns
`none`. -/
theorem token_roundtrip_up_to_trim (fs : TokenStore) (t : String) :
    loadToken (saveToken fs t) = some (jsTrim t) ∧
    (jsTrim t = t → loadToken (saveToken fs t) = some t) ∧
    loadToken (clearToken fs) = none := by
  refine ⟨rfl, fun h => ?_, rfl⟩
  simp [loadToken, saveToken, h]

/-- Witness for `token_roundtrip_up_to_trim` at the whitespace-free token
"mytoken". -/
theorem token_roundtrip_up_to_trim_witness :
    jsTrim "mytoken" = "mytoken" ∧
    loadToken (saveToken ⟨false, none⟩ "mytoken") = some "mytoken" :=
  ⟨by decide, (token_roundtrip_up_to_trim ⟨false, none⟩ "mytoken").2.1 (by decide)⟩

/-- C7 counterexample: the argument "a\tb" contains whitespace (a tab) but
no space character, so `executeCommand` leaves it unquoted in the final
command line — the quoting test is `includes(' ')`, not a whitespace
test. -/
theorem tab_argument_left_unquoted :
    ("a\tb".data.any Char.isWhitespace = true) ∧
    quoteArg "a\tb" = "a\tb" ∧
    quoteArg "a\tb" ≠ "\"a\tb\"" ∧
    buildCommandLine ["a\tb"] OutputFormat.text none true =
      "nightvision a\tb -F text --api-url https://api.nightvision.net/api/v1/" := by
  decide

/-- C7 (amended): the final command line is the space-join of the
per-argument quoting map over `nightvision` and the assembled arguments, and
that map wraps an argument in double quotes exactly when it contains a space
character (U+0020); arguments without a space — even ones with other
whitespace — are left unquoted. -/
theorem space_arguments_quoted (args : List String) (format : OutputFormat)
    (token : Option String) (skipToken : Bool) :
    buildCommandLine args format token skipToken =
      joinSep " " (("nightvision" :: commandArgsFor args format token skipToken).map quoteArg) ∧
    ∀ a : String,
      (' ' ∈ a.data → quoteArg a = "\"" ++ a ++ "\"") ∧
      (' ' ∉ a.data → quoteArg a = a) := by
  refine ⟨rfl, fun a => ⟨fun h => ?_, fun h => ?_⟩⟩
  · simp [quoteArg, hasSpace, h]
  · simp [quoteArg, hasSpace, h]

/-- Witness for `space_arguments_quoted`: "a b" contains a space and is
quoted. -/
theorem space_arguments_quoted_witness :
    (' ' ∈ "a b".data) ∧ quoteArg "a b" = "\"a b\"" :=
  ⟨by decide, ((space_arguments_quoted [] OutputFormat.text none false).2 "a b").1 (by decide)⟩

/-- C10: with an empty header list or an empty row list, `formatAsTable`
returns exactly the single-line string "No data to display" instead of a
header and separator line. -/
theorem formatAsTable_no_data_on_empty (headers : List String) (rows : List (List String))
    (h : headers = [] ∨ rows = []) :
    formatAsTable headers rows = "No data to display" ∧
    countLines (formatAsTable headers rows) = 1 := by
  rcases h with h | h <;> subst h <;>
    simp [formatAsTable] <;> decide

/-- Witness for `formatAsTable_no_data_on_empty` with one header and no
rows. -/
theorem formatAsTable_no_data_on_empty_witness :
    ((["ID"] : List String) = [] ∨ ([] : List (List String)) = []) ∧
    formatAsTable ["ID"] [] = "No data to display" :=
  ⟨Or.inr rfl, (formatAsTable_no_data_on_empty ["ID"] [] (Or.inr rfl)).1⟩

/-- C5: evaluating `getProjectByName` at an HTTP 404 failure shows the
generic message, not the specific one — `apiRequest` re-throws axios errors
as plain `Error`s, so the handler's `axios.isAxiosError(error) &&
error.response?.status === 404` arm can never match — while an empty
`results` array does produce the "not found" message. -/
theorem getProjectByName_404_generic_message :
    getProjectByName "demo"
        (Except.error (JsError.axios (some 404) (some "Not found.")
          "Request failed with status code 404")) =
      Except.error (JsError.plain
        "Failed to get project details: API request failed (404): Not found.") ∧
    getProjectByName "demo"
        (Except.error (JsError.axios (some 404) (some "Not found.")
          "Request failed with status code 404")) ≠
      Except.error (JsError.plain
        "Project 'demo' not found. Please check the project name and try again.") ∧
    getProjectByName "demo" (Except.ok (some ⟨some []⟩)) =
      Except.error (JsError.plain
        "Failed to get project details: Project 'demo' not found or has no data.") := by
  refine ⟨rfl, ?_, rfl⟩
  intro h
  rw [show getProjectByName "demo"
        (Except.error (JsError.axios (some 404) (some "Not found.")
          "Request failed with status code 404")) =
      Except.error (JsError.plain
        "Failed to get project details: API request failed (404): Not found.") from rfl] at h
  exact absurd (Except.error.inj h) (by decide)

/-- C8: with `severity = ["critical"]` and `status = [0]`, the query issued
by `getScanChecks` contains `severity=critical` and `status=0` as separate
repeated-key entries, and `page_size=100` when the caller omits `page_size`;
`getScanPaths` with `page_size` omitted sends no `page_size` entry at
all. -/
theorem scan_checks_query_params :
    (∀ (page : Option Nat) (name check_kind : Option String),
      ("severity", "critical") ∈
        expandQuery (scanChecksParams page none name check_kind ["critical"] [0]) ∧
      ("status", "0") ∈
        expandQuery (scanChecksParams page none name check_kind ["critical"] [0]) ∧
      ("page_size", "100") ∈
        expandQuery (scanChecksParams page none name check_kind ["critical"] [0])) ∧
    (∀ (page : Option Nat) (filterOpt : Option String) (v : String),
      ("page_size", v) ∉ expandQuery (scanPathsParams page none filterOpt)) := by
  constructor
  · intro page name check_kind
    refine
      ⟨List.mem_flatMap.mpr ⟨("severity", QueryVal.strList ["critical"]),
          by simp [scanChecksParams], by decide⟩,
        List.mem_flatMap.mpr ⟨("status", QueryVal.numList [0]),
          by simp [scanChecksParams], by decide⟩,
        List.mem_flatMap.mpr ⟨("page_size", QueryVal.num 100),
          by simp [scanChecksParams], by decide⟩⟩
  · intro page filterOpt v h
    rcases List.mem_flatMap.mp h with ⟨p, hp, hv⟩
    have hk : p.1 = "page_size" := by
      rcases p with ⟨k, q⟩
      rcases q with v' | v' | vs | vs <;> simp [expandQuery] at hv <;> tauto
    have hne : p.1 ≠ "page_size" := by
      rcases p with ⟨k, q⟩
      simp only [scanPathsParams, List.mem_append, List.not_mem_nil, or_false,
        false_or] at hp
      rcases hp with hp | hp
      · rcases page with _ | pg
        · simp at hp
        · split at hp
          · simp at hp
            simp [hp]
          · simp at hp
      · rcases filterOpt with _ | f
        · simp at hp
        · split at hp
          · simp at hp
            simp [hp]
          · simp at hp
    exact hne hk

/-- C1 counterexample: the authenticate tool handler, invoked with no
credential held and no parameters, returns an envelope that is NOT
error-flagged (the code's status-check arm omits `isError: true`), although
its text is the authentication-required message; so not every registered
tool handler answers the no-credential case with an error-flagged
envelope. -/
theorem authenticate_status_envelope_not_error_flagged :
    (authenticateTurn ⟨none, ⟨false, none⟩⟩ none false none (Except.error "unused") false).2.1.isError
        = false ∧
    (authenticateTurn ⟨none, ⟨false, none⟩⟩ none false none (Except.error "unused") false).2.1.text
        = "Not authenticated. Please provide a token or create a new one." ∧
    (authenticateTurn ⟨none, ⟨false, none⟩⟩ none false none (Except.error "unused") false).2.2
        = ([] : List Ev) :=
  ⟨rfl, rfl, rfl⟩

/-- C1 (amended): every credential-gated tool handler other than
authenticate — here the cited start-scan and create-nuclei-template
handlers — invoked while the service token is null returns, as its entire
turn, one error-flagged envelope starting with "Not authenticated" and
attempts no subprocess invocation or HTTP request; the authenticate handler
itself, called with no parameters while no credential is held, returns a
non-error envelope and also attempts nothing. -/
theorem auth_gate_blocks_tools_before_any_call :
    (∀ (args : StartScanArgs) (launch : Except String String),
      startScanTurn none args launch = [Ev.returned ⟨authRequiredText, true⟩]) ∧
    (∀ (cargs : CreateNucleiTemplateArgs) (svc : Except String String),
      createNucleiTurn none cargs svc = [Ev.returned ⟨authRequiredText, true⟩]) ∧
    (∃ rest, authRequiredText = "Not authenticated" ++ rest) ∧
    (∀ (store : TokenStore) (cr : Except String String) (vv : Bool),
      (authenticateTurn ⟨none, store⟩ none false none cr vv).2.1 =
        ⟨"Not authenticated. Please provide a token or create a new one.", false⟩ ∧
      (authenticateTurn ⟨none, store⟩ none false none cr vv).2.2 = []) :=
  ⟨fun _ _ => rfl, fun _ _ => rfl,
    ⟨". Please use the authenticate tool to set a token first.", by decide⟩,
    fun _ _ _ => ⟨rfl, rfl⟩⟩

/-- C2: when the credential and project checks pass, the start-scan turn is
a log line, then the `returned` non-error confirmation envelope, and only
then the background dispatch; and every event of the dispatched launch —
whatever its outcome — is a CLI invocation or a log line, never a second
`returned` envelope or an HTTP delivery back to the caller. -/
theorem start_scan_returns_before_background_dispatch
    (t : String) (args : StartScanArgs) (launch : Except String String)
    (htok : t ≠ "")
    (hproj : truthy args.project = true ∨ truthy args.project_id = true) :
    startScanTurn (some t) args launch =
      Ev.logged ("Starting scan for target '" ++ args.target_name ++ "' in background...") ::
      Ev.returned ⟨startScanConfirmText args.target_name args.project args.project_id, false⟩ ::
      startScanBackgroundEvents (some t) args launch ∧
    (Envelope.mk (startScanConfirmText args.target_name args.project args.project_id) false).isError
        = false ∧
    ∀ e ∈ startScanBackgroundEvents (some t) args launch,
      (∃ c, e = Ev.execCLI c) ∨ (∃ m, e = Ev.logged m) := by
  have h1 : truthy (some t) = true := by simp [truthy, htok]
  refine ⟨?_, rfl, ?_⟩
  · rcases hproj with hp | hp <;> simp [startScanTurn, h1, hp]
  · intro e he
    rcases launch with r | m <;> simp [startScanBackgroundEvents] at he <;>
      rcases he with he | he <;> subst he <;> simp

/-- Witness for `start_scan_returns_before_background_dispatch` at a
concrete token, target and project. -/
theorem start_scan_returns_before_background_dispatch_witness :
    ("tok123" ≠ "") ∧
    (truthy (some "p1") = true ∨ truthy (none : Option String) = true) ∧
    (∀ e ∈ startScanBackgroundEvents (some "tok123")
        ⟨"tgt", none, none, false, some "p1", none, OutputFormat.json⟩ (Except.ok "res"),
      (∃ c, e = Ev.execCLI c) ∨ (∃ m, e = Ev.logged m)) :=
  ⟨by decide, Or.inl (by decide),
    (start_scan_returns_before_background_dispatch "tok123"
      ⟨"tgt", none, none, false, some "p1", none, OutputFormat.json⟩ (Except.ok "res")
      (by decide) (Or.inl (by decide))).2.2⟩

/-- C4 counterexample: in the create-new-token branch, when the freshly
created token fails remote validation, the handler returns its error
envelope but the in-process token stays set and the token file stays
written — nothing is cleared. -/
theorem create_new_branch_keeps_token_on_invalid :
    (authenticateTurn ⟨none, ⟨false, none⟩⟩ none true none (Except.ok "newtok12345") false).1 =
      ⟨some "newtok12345", ⟨true, some "newtok12345"⟩⟩ ∧
    (authenticateTurn ⟨none, ⟨false, none⟩⟩ none true none (Except.ok "newtok12345") false).2.1.isError
        = true ∧
    (authenticateTurn ⟨none, ⟨false, none⟩⟩ none true none (Except.ok "newtok12345") false).1.svcToken
        ≠ none := by
  refine ⟨rfl, rfl, by decide⟩

/-- C4 (amended): only the provided-token branch clears the credential on
validation failure — the in-process token is reset to null and the token
file deleted before the error envelope is returned — while the
create-new-token branch leaves the freshly created token set and persisted
even when its validation fails. -/
theorem provided_token_cleared_on_invalid
    (st : AuthState) (t : String) (ht : t ≠ "") (expiry : Option String)
    (cr : Except String String) :
    (authenticateTurn st (some t) false expiry cr false).1 = ⟨none, ⟨true, none⟩⟩ ∧
    (authenticateTurn st (some t) false expiry cr false).2.1.isError = true ∧
    (∀ newTok : String,
      (authenticateTurn st none true expiry (Except.ok newTok) false).1 =
        ⟨some newTok, ⟨true, some newTok⟩⟩) := by
  refine ⟨?_, ?_, fun newTok => ?_⟩
  · simp [authenticateTurn, truthy, ht, strOr, verifyResult, clearToken, saveToken]
  · simp [authenticateTurn, truthy, ht, strOr, verifyResult]
  · simp [authenticateTurn, verifyResult, truthy, saveToken]

/-- Witness for `provided_token_cleared_on_invalid` at a concrete invalid
token over a previously authenticated state. -/
theorem provided_token_cleared_on_invalid_witness :
    ("badtok" ≠ "") ∧
    (authenticateTurn ⟨some "old", ⟨true, some "old"⟩⟩ (some "badtok") false none
        (Except.error "x") false).1 = ⟨none, ⟨true, none⟩⟩ :=
  ⟨by decide,
    (provided_token_cleared_on_invalid ⟨some "old", ⟨true, some "old"⟩⟩ "badtok"
      (by decide) none (Except.error "x")).1⟩

/-! ### Supporting lemmas for the table-shape theorem -/

/-- A one-line string contributes no newline to the filter count. -/
lemma filter_nl_nil {s : String} (h : noNewline s) :
    s.data.filter (fun c => c == '\n') = [] := by
  refine List.filter_eq_nil_iff.mpr (fun c hc => ?_)
  simp only [beq_iff_eq]
  rintro rfl
  exact h hc

/-- Concatenation preserves one-line strings. -/
lemma noNewline_append {a b : String} (ha : noNewline a) (hb : noNewline b) :
    noNewline (a ++ b) := by
  simp only [noNewline, String.data_append, List.mem_append] at *
  tauto

/-- Joining one-line strings with a one-line separator stays on one line. -/
lemma noNewline_joinSep {sep : String} (hsep : noNewline sep) :
    ∀ {l : List String}, (∀ s ∈ l, noNewline s) → noNewline (joinSep sep l)
  | [], _ => by simp [joinSep, noNewline]
  | [s], h => by simpa [joinSep] using h s (by simp)
  | s :: t :: rest, h => by
    rw [joinSep]
    exact noNewline_append (noNewline_append (h s (by simp)) hsep)
      (noNewline_joinSep hsep (fun x hx => h x (List.mem_cons_of_mem s hx)))

/-- Joining `n` one-line strings with newlines produces `n - 1` newline
characters. -/
lemma newlines_joinSep :
    ∀ {l : List String}, l ≠ [] → (∀ s ∈ l, noNewline s) →
      ((joinSep "\n" l).data.filter (fun c => c == '\n')).length = l.length - 1
  | [], h, _ => absurd rfl h
  | [s], _, h => by
    simp [joinSep, filter_nl_nil (h s (by simp))]
  | s :: t :: rest, _, h => by
    rw [joinSep]
    have hs := filter_nl_nil (h s (by simp))
    have ih := newlines_joinSep (l := t :: rest) (by simp)
      (fun x hx => h x (List.mem_cons_of_mem s hx))
    have hone : (List.filter (fun c => c == '\n') ("\n").data).length = 1 := by decide
    simp only [String.data_append, List.filter_append, List.length_append, hs, ih, hone]
    simp only [List.length_cons, List.length_nil]
    omega

/-- Joining `n` one-line strings with newlines yields a string of `n`
lines. -/
lemma countLines_joinSep {l : List String} (hl : l ≠ [])
    (h : ∀ s ∈ l, noNewline s) : countLines (joinSep "\n" l) = l.length := by
  have hnl := newlines_joinSep hl h
  have hpos : 1 ≤ l.length := by
    cases l with
    | nil => exact absurd rfl hl
    | cons a as => simp
  simp only [countLines, hnl]
  omega

/-- Space padding keeps a one-line string on one line. -/
lemma noNewline_padEnd {s : String} (h : noNewline s) (w : Nat) :
    noNewline (padEnd s w) := by
  refine noNewline_append h ?_
  intro hc
  have := List.eq_of_mem_replicate hc
  simp at this

/-- A dash run is a one-line string. -/
lemma noNewline_dashes (w : Nat) : noNewline (String.mk (List.replicate w '-')) := by
  intro hc
  have := List.eq_of_mem_replicate hc
  simp at this

/-- The seed is a lower bound of a left max-fold. -/
lemma le_foldl_max (l : List Nat) (b : Nat) : b ≤ l.foldl max b := by
  induction l generalizing b with
  | nil => simp
  | cons x xs ih => exact le_trans (le_max_left b x) (ih (max b x))

/-- Every member is a lower bound of a left max-fold. -/
lemma mem_le_foldl_max {a : Nat} : ∀ {l : List Nat}, a ∈ l → ∀ b : Nat, a ≤ l.foldl max b := by
  intro l h
  induction l with
  | nil => cases h
  | cons x xs ih =>
    intro b
    rcases List.mem_cons.mp h with rfl | h2
    · exact le_trans (le_max_right b a) (le_foldl_max xs _)
    · exact ih h2 _

/-- The length of a padded string is the larger of the target width and the
string's own length. -/
lemma padEnd_length (s : String) (w : Nat) : (padEnd s w).length = max s.length w := by
  simp only [padEnd, String.length_append, String.length_mk, List.length_replicate]
  rcases Nat.le_total s.length w with h | h
  · rw [max_eq_right h]
    omega
  · rw [max_eq_left h]
    omega

/-- The computed column width at a valid header index is the specification's
per-column maximum. -/
lemma colWidthsOf_getD (headers : List String) (rows : List (List String))
    (i : Nat) (hi : i < headers.length) :
    (colWidthsOf headers rows).getD i 0 = maxColLen headers rows i := by
  have hlen : i < (colWidthsOf headers rows).length := by
    simpa [colWidthsOf] using hi
  rw [List.getD_eq_getElem _ _ hlen]
  simp only [colWidthsOf, List.getElem_map, List.getElem_enum]
  rw [maxColLen, List.getD_eq_getElem _ _ hi]

/-- C6 counterexample: with zero data rows the table rendering is the
single-line string "No data to display" — one line, not N+2 = 2 lines. -/
theorem formatAsTable_zero_rows_single_line :
    formatAsTable ["h"] [] = "No data to display" ∧
    countLines (formatAsTable ["h"] []) = 1 ∧
    countLines (formatAsTable ["h"] []) ≠ ([] : List (List String)).length + 2 := by
  decide

/-- C6 (amended): for at least one header and at least one row, all free of
newline characters, the rendered table consists of exactly N+2 lines —
header, separator and the N data rows — and every column's rendered width
(the length of each padded cell of that column, header included) equals the
maximum string length among that column's header and cell values. -/
theorem formatAsTable_shape_and_widths
    (headers : List String) (rows : List (List String))
    (hH : headers ≠ []) (hN : rows ≠ [])
    (hnlH : ∀ h ∈ headers, noNewline h)
    (hnlR : ∀ r ∈ rows, ∀ c ∈ r, noNewline c) :
    countLines (formatAsTable headers rows) = rows.length + 2 ∧
    ∀ i, i < headers.length →
      (colWidthsOf headers rows).getD i 0 = maxColLen headers rows i ∧
      (padEnd (headers.getD i "") ((colWidthsOf headers rows).getD i 0)).length
          = maxColLen headers rows i ∧
      ∀ r ∈ rows, (padEnd (cellAt r i) ((colWidthsOf headers rows).getD i 0)).length
          = maxColLen headers rows i := by
  have h0 : ¬(headers.length = 0 ∨ rows.length = 0) := by
    rintro (h | h)
    · exact hH (List.length_eq_zero.mp h)
    · exact hN (List.length_eq_zero.mp h)
  constructor
  · have hexp : formatAsTable headers rows =
        joinSep "\n"
          (joinSep " | " (headers.enum.map
              (fun p => padEnd p.2 ((colWidthsOf headers rows).getD p.1 0))) ::
           joinSep "-+-" ((colWidthsOf headers rows).map
              (fun w => String.mk (List.replicate w '-'))) ::
           rows.map (fun row => joinSep " | " (row.enum.map
              (fun p => padEnd p.2 ((colWidthsOf headers rows).getD p.1 0))))) := by
      rw [formatAsTable, if_neg h0]
    rw [hexp, countLines_joinSep (by simp) ?hall]
    · simp
    case hall =>
      intro s hs
      rcases List.mem_cons.mp hs with rfl | hs
      · refine noNewline_joinSep (by unfold noNewline; decide) ?_
        intro x hx
        rcases List.mem_map.mp hx with ⟨p, hp, rfl⟩
        exact noNewline_padEnd (hnlH _ (List.snd_mem_of_mem_enum hp)) _
      rcases List.mem_cons.mp hs with rfl | hs
      · refine noNewline_joinSep (by unfold noNewline; decide) ?_
        intro x hx
        rcases List.mem_map.mp hx with ⟨w, hw, rfl⟩
        exact noNewline_dashes w
      · rcases List.mem_map.mp hs with ⟨row, hrow, rfl⟩
        refine noNewline_joinSep (by unfold noNewline; decide) ?_
        intro x hx
        rcases List.mem_map.mp hx with ⟨p, hp, rfl⟩
        exact noNewline_padEnd (hnlR _ hrow _ (List.snd_mem_of_mem_enum hp)) _
  · intro i hi
    have hw := colWidthsOf_getD headers rows i hi
    refine ⟨hw, ?_, ?_⟩
    · rw [hw, padEnd_length]
      exact max_eq_right (le_max_left _ _)
    · intro r hr
      rw [hw, padEnd_length]
      refine max_eq_right (le_trans ?_ (le_max_right _ _))
      exact mem_le_foldl_max (a := (cellAt r i).length)
        (l := rows.map (fun r => (cellAt r i).length))
        (List.mem_map.mpr ⟨r, hr, rfl⟩) 0

/-- Witness for `formatAsTable_shape_and_widths` on a concrete two-by-two
table. -/
theorem formatAsTable_shape_and_widths_witness :
    ((["ID", "Name"] : List String) ≠ [] ∧
     ([["1", "Alice"], ["2", "Bo"]] : List (List String)) ≠ [] ∧
     (∀ h ∈ (["ID", "Name"] : List String), noNewline h) ∧
     (∀ r ∈ ([["1", "Alice"], ["2", "Bo"]] : List (List String)), ∀ c ∈ r, noNewline c)) ∧
    countLines (formatAsTable ["ID", "Name"] [["1", "Alice"], ["2", "Bo"]]) = 2 + 2 :=
  ⟨⟨by decide, by decide, by unfold noNewline; decide, by unfold noNewline; decide⟩,
    (formatAsTable_shape_and_widths ["ID", "Name"] [["1", "Alice"], ["2", "Bo"]]
      (by decide) (by decide) (by unfold noNewline; decide)
      (by unfold noNewline; decide)).1⟩

/-! ### Supporting lemmas for the output-path theorem -/

/-- `takeWhile` over a concatenation stops exactly at the first failing
character. -/
lemma takeWhile_append_stop (p : Char → Bool) (l1 l2 : List Char) (c : Char)
    (h1 : ∀ a ∈ l1, p a = true) (h2 : p c = false) :
    (l1 ++ c :: l2).takeWhile p = l1 := by
  induction l1 with
  | nil => simp [List.takeWhile_cons, h2]
  | cons x xs ih =>
    rw [List.cons_append, List.takeWhile_cons, if_pos (h1 x (by simp)),
      ih (fun a ha => h1 a (by simp [ha]))]

/-- The base name of a joined path is the joined file name, when the file
name itself carries no separator. -/
lemma basename_pathJoin {d f : String} (hf : ('/' : Char) ∉ f.data) :
    basename (pathJoin d f) = f := by
  have hdata : (pathJoin d f).data = (d.data ++ ['/']) ++ f.data := by
    simp [pathJoin, String.data_append]
  rw [basename, hdata]
  rw [List.reverse_append, List.reverse_append]
  simp only [List.reverse_cons, List.reverse_nil, List.nil_append, List.singleton_append]
  rw [takeWhile_append_stop _ _ _ '/'
    (fun a ha => by
      simp only [bne_iff_ne, ne_eq, decide_eq_true_eq]
      rintro rfl
      exact hf (List.mem_reverse.mp ha))
    (by decide)]
  simp

/-- The vetted output file for the request `output = "/spec.yml"` is the
temp directory joined with "spec.yml", whatever the filesystem answers:
the dirname of "/spec.yml" is the root, so the first redirect fires, and a
failing write-access test re-joins the same base name to the same temp
directory. -/
lemma computeOutputFile_root (fs : FsView) (tmpDir : String)
    (resolve : String → String → String) (ws : String) :
    computeOutputFile fs tmpDir resolve ws "/spec.yml" = pathJoin tmpDir "spec.yml" := by
  have hh : ("/spec.yml".data.head? = some '/') := by decide
  have hbn : basename "/spec.yml" = "spec.yml" := by decide
  have hdn : dirname "/spec.yml" = "/" := by decide
  have hb2 : basename (pathJoin tmpDir "spec.yml") = "spec.yml" :=
    basename_pathJoin (by decide)
  simp [computeOutputFile, hh, hdn, hbn, hb2]

/-- C9: a `discoverApi` call requesting the output "/spec.yml" (an absolute
path directly under the filesystem root) has its output path redirected to
the platform temp directory joined with the same base file name: the issued
command carries `--output <tmpDir>/spec.yml`, and the string returned on
success contains that redirected absolute path. -/
theorem discoverApi_root_output_redirected_to_tmp
    (fs : FsView) (tmpDir : String) (resolve : String → String → String)
    (ws : String) (sourcePaths : List String) (opts : DiscoverOptions)
    (cliOutput : String) (hout : opts.output = "/spec.yml") :
    computeOutputFile fs tmpDir resolve ws opts.output = pathJoin tmpDir "spec.yml" ∧
    (∃ l1 l2, discoverApiArgs fs tmpDir resolve ws sourcePaths opts =
      l1 ++ ["--output", pathJoin tmpDir "spec.yml"] ++ l2) ∧
    (∃ pre, discoverApiSuccess fs tmpDir resolve ws opts cliOutput =
      pre ++ pathJoin tmpDir "spec.yml") := by
  have hc := computeOutputFile_root fs tmpDir resolve ws
  refine ⟨by rw [hout]; exact hc, ?_, ?_⟩
  · refine ⟨["swagger", "extract"] ++
      sourcePaths.map (fun sp => if sp.data.head? = some '/' then sp else resolve ws sp) ++
      ["--lang", opts.lang] ++ optFlag "--target" opts.target ++
      optFlag "--target-id" opts.target_id ++ optFlag "--project" opts.project ++
      optFlag "--project-id" opts.project_id,
      optFlag "--exclude" opts.exclude ++ optFlag "--version" opts.version ++
      (if opts.no_upload != some false then ["--no-upload"] else []) ++
      (if opts.dump_code then ["--dump-code"] else []), ?_⟩
    simp only [discoverApiArgs, hout, hc]
    simp [List.append_assoc]
  · refine ⟨cliOutput ++ "\nOpenAPI Specification File: ", ?_⟩
    simp only [discoverApiSuccess, hout, hc]

/-- Witness for `discoverApi_root_output_redirected_to_tmp` at a concrete
option record and filesystem. -/
theorem discoverApi_root_output_redirected_to_tmp_witness :
    ((⟨"js", none, none, none, none, "/spec.yml", none, none, none, false,
        false⟩ : DiscoverOptions).output = "/spec.yml") ∧
    computeOutputFile ⟨fun _ => true, fun _ => true⟩ "/tmp"
        (fun a b => a ++ "/" ++ b) "/ws" "/spec.yml" = pathJoin "/tmp" "spec.yml" :=
  ⟨rfl,
    (discoverApi_root_output_redirected_to_tmp ⟨fun _ => true, fun _ => true⟩ "/tmp"
      (fun a b => a ++ "/" ++ b) "/ws" ["src"]
      ⟨"js", none, none, none, none, "/spec.yml", none, none, none, false, false⟩
      "ok" rfl).1⟩

end NightVision
